import Mathlib

/-!
Verification of the Hebron scheduling backend (src/backend/server.py).

The booking store (a MongoDB collection) is modelled as a `List Booking`;
`find_one` corresponds to `List.find?` / `List.any` over that list, and
`update_one` to updating the first matching element.  Timestamps are kept
as the ISO strings the code stores (`isoformat()`), and the generated
booking id and "now" are passed in as parameters (the code draws them from
`uuid.uuid4()` and `datetime.now()`).  Calendar dates are modelled by a
`Date` structure with proleptic-Gregorian day numbering, which is the
semantics of Python's `datetime.date` comparison, `timedelta` addition and
`weekday()`.
-/

namespace Hebron

/-- Calendar date, as produced by `datetime.strptime(date_str, "%Y-%m-%d")`. -/
structure Date where
  year : Nat
  month : Nat
  day : Nat
deriving DecidableEq, Repr

/-- Gregorian leap-year rule used by `datetime`. -/
def isLeap (y : Nat) : Bool :=
  (y % 4 == 0 && y % 100 != 0) || (y % 400 == 0)

/-- Number of days in a month of a given year. -/
def daysInMonth (y m : Nat) : Nat :=
  if m == 2 then (if isLeap y then 29 else 28)
  else if m == 4 || m == 6 || m == 9 || m == 11 then 30
  else 31

/-- Day number of a date (days since 0000-03-01 in the proleptic Gregorian
calendar, the standard civil-from-days correspondence).  Date comparison in
Python is equivalent to comparison of these day numbers, and adding
`timedelta(days := n)` adds `n` here. -/
def rataDie (d : Date) : Nat :=
  let y := if d.month ≤ 2 then d.year - 1 else d.year
  let era := y / 400
  let yoe := y - era * 400
  let mp := if d.month > 2 then d.month - 3 else d.month + 9
  let doy := (153 * mp + 2) / 5 + d.day - 1
  let doe := yoe * 365 + yoe / 4 - yoe / 100 + doy
  era * 146097 + doe

/-- Python's `date.weekday()`: Monday = 0, ..., Sunday = 6. -/
def weekday (d : Date) : Nat :=
  (rataDie d + 2) % 7

/-- Split a character list at every hyphen (the field separators of the
`"%Y-%m-%d"` format); adjacent or leading/trailing hyphens yield empty
fields, which the digit checks below reject. -/
def splitDash : List Char → List (List Char)
  | [] => [[]]
  | c :: cs =>
    if c == '-' then [] :: splitDash cs
    else
      match splitDash cs with
      | [] => [[c]]
      | f :: rest => (c :: f) :: rest

/-- Every character is a decimal digit (and the field is as `\d+` would
require: the empty field fails the length checks below). -/
def allDigits : List Char → Bool
  | [] => true
  | c :: cs => c.isDigit && allDigits cs

/-- Numeric value of a digit string. -/
def toNatDigits (cs : List Char) : Nat :=
  cs.foldl (fun a c => a * 10 + (c.toNat - 48)) 0

/-- Models `datetime.strptime(date_str, "%Y-%m-%d")`: the year is exactly
four digits, month and day one or two digits, the fields separated by
literal hyphens with nothing left over, and the resulting (year, month, day)
must be a real calendar date with year at least 1 (otherwise `ValueError`
and the caller sees a parse failure). -/
def parseDate (s : String) : Option Date :=
  match splitDash s.data with
  | [ys, ms, ds] =>
    if allDigits ys && allDigits ms && allDigits ds then
      if ys.length = 4 ∧ 1 ≤ ms.length ∧ ms.length ≤ 2
          ∧ 1 ≤ ds.length ∧ ds.length ≤ 2 then
        let y := toNatDigits ys
        let m := toNatDigits ms
        let d := toNatDigits ds
        if 1 ≤ y ∧ 1 ≤ m ∧ m ≤ 12 ∧ 1 ≤ d ∧ d ≤ daysInMonth y m then
          some ⟨y, m, d⟩
        else none
      else none
    else none
  | _ => none

/-- `validate_booking_date` from server.py: parse the string (any
`ValueError` yields `False`), require weekday Monday (0) to Thursday (3),
and require `today ≤ date ≤ today + 31 days`.  `today` is passed explicitly
here; the code reads `datetime.now()`. -/
def validate_booking_date (dateStr : String) (today : Date) : Bool :=
  match parseDate dateStr with
  | none => false
  | some d =>
    if weekday d > 3 then false
    else if rataDie d < rataDie today then false
    else if rataDie d > rataDie today + 31 then false
    else true

/-- A pattern character matches an input character: `.` matches anything,
otherwise the comparison is case-insensitive (the `$options: "i"` flag). -/
def charMatches (p c : Char) : Bool :=
  p == '.' || p.toLower == c.toLower

/-- Case-insensitive anchored regular-expression matching over the fragment
relevant to the duplicate-person pre-check in `create_booking`, which builds
the pattern `^<submitted name>$` from the raw submitted name without escaping:
literal characters, `.`, and the postfix quantifiers `*`, `+`, `?`.  The
whole input must be consumed (the source pattern is anchored on both ends).
Every recursive call shrinks `p.length + s.length`, so with fuel exceeding
`p.length + s.length` the fuel never runs out and the function computes the
unbounded backtracking matcher. -/
def reMatch (fuel : Nat) (p s : List Char) : Bool :=
  match fuel, p, s with
  | _, [], [] => true
  | _, [], _ :: _ => false
  | 0, _ :: _, _ => false
  | f + 1, _ :: '*' :: ps, [] => reMatch f ps []
  | f + 1, p :: '*' :: ps, c :: cs =>
    reMatch f ps (c :: cs) || (charMatches p c && reMatch f (p :: '*' :: ps) cs)
  | _, _ :: '+' :: _, [] => false
  | f + 1, p :: '+' :: ps, c :: cs => charMatches p c && reMatch f (p :: '*' :: ps) cs
  | f + 1, _ :: '?' :: ps, [] => reMatch f ps []
  | f + 1, p :: '?' :: ps, c :: cs =>
    reMatch f ps (c :: cs) || (charMatches p c && reMatch f ps cs)
  | _, _ :: _, [] => false
  | f + 1, p :: ps, c :: cs => charMatches p c && reMatch f ps cs

/-- The duplicate-person check's matching of a submitted name against a stored
name: `{"$regex": "^" + name + "$", "$options": "i"}`. -/
def regexNameMatch (pattern stored : String) : Bool :=
  reMatch (pattern.data.length + stored.data.length + 1) pattern.data stored.data

/-- Lower-case a string character by character (ASCII case folding, the
effect of the regex `i` option on these names). -/
def lowerStr (s : String) : String :=
  String.mk (s.data.map Char.toLower)

/-- The case-insensitive exact name equality that the specification describes
for the duplicate-person invariant. -/
def ciEq (a b : String) : Bool :=
  lowerStr a == lowerStr b

/-- Request body of `POST /api/bookings` (`BookingCreate`). -/
structure BookingCreate where
  full_name : String
  role : String
  date : String
  notes : Option String
  email : Option String
deriving DecidableEq, Repr

/-- A stored booking document (`Booking` model; `created_at` and
`last_updated_at` are kept as the ISO strings the code stores). -/
structure Booking where
  id : String
  created_at : String
  full_name : String
  role : String
  date : String
  time_start : String
  time_end : String
  status : String
  notes : Option String
  email : Option String
  edited_by_admin : Bool
  last_updated_at : String
deriving DecidableEq, Repr

/-- Request body of `PUT /api/admin/bookings` (`BookingUpdate`): every field
optional; `None` fields are dropped from the update. -/
structure BookingUpdate where
  full_name : Option String
  role : Option String
  date : Option String
  notes : Option String
  status : Option String
  email : Option String
deriving DecidableEq, Repr

/-- The error outcomes raised by the booking operations, one per distinct
`HTTPException` site: invalid date (400), slot already taken (409), the
requester already has a booking that date (409), booking id not found (404),
and an empty update (400). -/
inductive ApiError where
  | invalidDate
  | slotConflict
  | duplicatePerson
  | notFound
  | noFieldsToUpdate
deriving DecidableEq, Repr

/-- The (date, role, status = Booked) slot pre-check and the conditional
write's match condition: does any Booked record for this (date, role) exist? -/
def slotTaken (s : List Booking) (d r : String) : Bool :=
  s.any fun b => b.date == d && b.role == r && b.status == "Booked"

/-- The duplicate-person pre-check: some Booked record on this date whose
stored name matches the submitted name interpreted as a case-insensitive
anchored regex (any role). -/
def personTaken (s : List Booking) (d nm : String) : Bool :=
  s.any fun b => b.date == d && regexNameMatch nm b.full_name && b.status == "Booked"

/-- The new document built by `Booking(**booking_data.model_dump())` with its
defaulted fields. -/
def newBooking (newId nowTs : String) (bd : BookingCreate) : Booking :=
  { id := newId
    created_at := nowTs
    full_name := bd.full_name
    role := bd.role
    date := bd.date
    time_start := "20:00"
    time_end := "21:00"
    status := "Booked"
    notes := bd.notes
    email := bd.email
    edited_by_admin := false
    last_updated_at := nowTs }

/-- One `create_booking` call in an interleaved execution: the advisory
pre-checks (date validity, slot conflict, duplicate person) read the snapshot
`pre` the caller observed, while the conditional write
(`update_one` on (date, role, Booked) with `$setOnInsert`, `upsert = True`)
executes atomically against the live state `cur`: if a matching Booked record
exists there, `matched_count > 0` and the call raises 409 without changing the
store; otherwise the new document is inserted. -/
def reserveConc (today : Date) (newId nowTs : String) (bd : BookingCreate)
    (pre cur : List Booking) : Except ApiError Booking × List Booking :=
  if !validate_booking_date bd.date today then (.error .invalidDate, cur)
  else if slotTaken pre bd.date bd.role then (.error .slotConflict, cur)
  else if personTaken pre bd.date bd.full_name then (.error .duplicatePerson, cur)
  else if slotTaken cur bd.date bd.role then (.error .slotConflict, cur)
  else (.ok (newBooking newId nowTs bd), cur ++ [newBooking newId nowTs bd])

/-- `create_booking` run without interference: pre-checks and conditional
write see the same state. -/
def create_booking (today : Date) (newId nowTs : String) (bd : BookingCreate)
    (s : List Booking) : Except ApiError Booking × List Booking :=
  reserveConc today newId nowTs bd s s

/-- Number of Booked records for a (date, role) slot. -/
def countBooked (s : List Booking) (d r : String) : Nat :=
  (s.filter fun b => b.date == d && b.role == r && b.status == "Booked").length

/-- Update the first element satisfying `p` (MongoDB `update_one`); `none`
when nothing matches (`matched_count == 0`). -/
def updateFirst (p : Booking → Bool) (f : Booking → Booking) :
    List Booking → Option (List Booking)
  | [] => none
  | b :: t =>
    if p b then some (f b :: t)
    else match updateFirst p f t with
      | none => none
      | some t' => some (b :: t')

/-- The `$set` applied by `unlock_slot`. -/
def setCancelled (nowTs : String) (b : Booking) : Booking :=
  { b with status := "Cancelled", edited_by_admin := true, last_updated_at := nowTs }

/-- `unlock_slot` from server.py: cancel the booking with the given id
(status → Cancelled, admin flag, fresh timestamp); 404 when no booking
matches.  The record is updated, never removed. -/
def unlock_slot (s : List Booking) (bookingId nowTs : String) :
    Except ApiError String × List Booking :=
  match updateFirst (fun b => b.id == bookingId) (setCancelled nowTs) s with
  | none => (.error .notFound, s)
  | some s' => (.ok "Slot unlocked successfully", s')

/-- Does the update carry at least one non-`None` field
(`if not update_dict`)? -/
def hasFields (u : BookingUpdate) : Bool :=
  u.full_name.isSome || u.role.isSome || u.date.isSome
    || u.notes.isSome || u.status.isSome || u.email.isSome

/-- The `$set` of `update_booking`: overwrite exactly the supplied fields,
mark the record admin-edited, refresh the timestamp. -/
def applyUpdate (u : BookingUpdate) (nowTs : String) (b : Booking) : Booking :=
  { b with
    full_name := u.full_name.getD b.full_name
    role := u.role.getD b.role
    date := u.date.getD b.date
    notes := match u.notes with | some n => some n | none => b.notes
    status := u.status.getD b.status
    email := match u.email with | some e => some e | none => b.email
    edited_by_admin := true
    last_updated_at := nowTs }

/-- `update_booking` from server.py: reject an empty update; when date or
role changes, look up the booking and re-run the (date, role) conflict check
against all Booked bookings other than the one being edited, raising 409 on a
hit with no write performed; otherwise apply the `$set` to the first matching
record and return the updated document. -/
def update_booking (s : List Booking) (bookingId : String) (u : BookingUpdate)
    (nowTs : String) : Except ApiError (Option Booking) × List Booking :=
  if !hasFields u then (.error .noFieldsToUpdate, s)
  else if u.date.isSome || u.role.isSome then
    match s.find? (fun b => b.id == bookingId) with
    | none => (.error .notFound, s)
    | some existing =>
      let checkDate := u.date.getD existing.date
      let checkRole := u.role.getD existing.role
      if s.any (fun b => b.date == checkDate && b.role == checkRole
          && b.status == "Booked" && !(b.id == bookingId)) then
        (.error .slotConflict, s)
      else
        match updateFirst (fun b => b.id == bookingId) (applyUpdate u nowTs) s with
        | none => (.error .notFound, s)
        | some s' => (.ok (s'.find? (fun b => b.id == bookingId)), s')
  else
    match updateFirst (fun b => b.id == bookingId) (applyUpdate u nowTs) s with
    | none => (.error .notFound, s)
    | some s' => (.ok (s'.find? (fun b => b.id == bookingId)), s')

/-- Accumulator pass behind `nameTokens`: collect maximal runs of
non-whitespace characters (`acc` holds the current run, reversed). -/
def wsTokensAux (acc : List Char) : List Char → List (List Char)
  | [] => if acc.isEmpty then [] else [acc.reverse]
  | c :: cs =>
    if c.isWhitespace then
      if acc.isEmpty then wsTokensAux [] cs
      else acc.reverse :: wsTokensAux [] cs
    else wsTokensAux (c :: acc) cs

/-- Whitespace tokenisation performed by `full_name.strip().split()`:
Python's argument-less `split` drops leading, trailing and repeated
whitespace, yielding the non-empty tokens in order. -/
def nameTokens (full_name : String) : List String :=
  (wsTokensAux [] full_name.data).map String.mk

/-- Python's `token[0]` as a string: the first character. -/
def firstCharStr (s : String) : String :=
  String.mk (s.data.take 1)

/-- `format_name_display` from server.py: first token plus the first
character of the last token and a period when there are at least two tokens;
the lone token otherwise; the fixed placeholder on an empty name. -/
def format_name_display (full_name : String) : String :=
  let parts := nameTokens full_name
  if parts.length ≥ 2 then
    parts.headD "" ++ " " ++ firstCharStr (parts.getLastD "") ++ "."
  else
    match parts with
    | [] => "Anonymous"
    | p :: _ => p

/-!
Interleaved executions of concurrent `create_booking` calls.  The store is
only mutated by the atomic conditional writes, so an execution is determined
by the commit order of the calls (call `k` commits at step `k`) together with
a snapshot index for each call: call `k`'s advisory pre-checks read the store
as it was after `snap k` earlier commits (`snap k ≤ k`; `min` makes the
definition total).  Quantifying over `reqs` and `snap` covers every arrival
order and every racy overlap of the N calls.
-/

/-- Store contents after the first `k` commits of an interleaved execution. -/
def execState (today : Date) (ids : Nat → String) (nowTs : String)
    (reqs : Nat → BookingCreate) (snap : Nat → Nat) (init : List Booking) :
    Nat → List Booking
  | 0 => init
  | k + 1 =>
    (reserveConc today (ids k) nowTs (reqs k)
      (execState today ids nowTs reqs snap init (min (snap k) k))
      (execState today ids nowTs reqs snap init k)).2
termination_by k => k
decreasing_by all_goals omega

/-- Outcome observed by call `k` in the interleaved execution. -/
def execOutcome (today : Date) (ids : Nat → String) (nowTs : String)
    (reqs : Nat → BookingCreate) (snap : Nat → Nat) (init : List Booking)
    (k : Nat) : Except ApiError Booking :=
  (reserveConc today (ids k) nowTs (reqs k)
    (execState today ids nowTs reqs snap init (min (snap k) k))
    (execState today ids nowTs reqs snap init k)).1

/-- Outcome of one email-send attempt recorded by `_send_email_via_resend`. -/
inductive SendResult where
  | skippedNoRecipient
  | skippedNoKey
  | sent
  | failedStatus (code : Nat)
  | failedTransport (msg : String)
deriving DecidableEq, Repr

/-- `_send_email_via_resend` from server.py with the HTTP transport as an
explicit collaborator (it returns a status code or fails like an exception):
skip silently on a missing recipient or API key; any non-2xx status or
transport failure is caught and logged.  The function is total — no failure
escapes it, which is how the code's `try/except` swallows every send error. -/
def sendEmailViaResend (apiKey : String)
    (transport : String → Except String Nat) (toEmail : String) : SendResult :=
  if toEmail == "" then .skippedNoRecipient
  else if apiKey == "" then .skippedNoKey
  else
    match transport toEmail with
    | .error msg => .failedTransport msg
    | .ok code => if code < 200 || 300 ≤ code then .failedStatus code else .sent

/-- `send_daily_reminders` from server.py: select today's Booked bookings
that carry an email address and attempt one send per recipient, in order,
recording each attempt's outcome.  The inter-send `sleep(1)` pacing and the
log lines carry no store state and are omitted. -/
def send_daily_reminders (todayStr apiKey : String)
    (transport : String → Except String Nat) (store : List Booking) :
    List (String × SendResult) :=
  (store.filter fun b =>
      b.date == todayStr && b.status == "Booked" && b.email.isSome).filterMap
    fun b =>
      match b.email with
      | some e => if e == "" then none else some (e, sendEmailViaResend apiKey transport e)
      | none => none

/-- A record returned by `GET /api/bookings/public`: the projection drops
`email` and `notes` (`{"_id": 0, "email": 0, "notes": 0}`) and a
`display_name` field is added. -/
structure PublicBooking where
  id : String
  created_at : String
  full_name : String
  role : String
  date : String
  time_start : String
  time_end : String
  status : String
  edited_by_admin : Bool
  last_updated_at : String
  display_name : String
deriving DecidableEq, Repr

/-- The per-record shaping done by `get_public_bookings`. -/
def toPublic (b : Booking) : PublicBooking :=
  { id := b.id
    created_at := b.created_at
    full_name := b.full_name
    role := b.role
    date := b.date
    time_start := b.time_start
    time_end := b.time_end
    status := b.status
    edited_by_admin := b.edited_by_admin
    last_updated_at := b.last_updated_at
    display_name := format_name_display b.full_name }

/-- `get_public_bookings` from server.py: all Booked bookings, shaped for the
public calendar. -/
def get_public_bookings (store : List Booking) : List PublicBooking :=
  (store.filter fun b => b.status == "Booked").map toPublic

/-- Erase the two private fields of a booking; two stores with the same
image under `scrub` differ only in emails and notes. -/
def scrub (b : Booking) : Booking :=
  { b with email := none, notes := none }

lemma execState_zero (today : Date) (ids : Nat → String) (nowTs : String)
    (reqs : Nat → BookingCreate) (snap : Nat → Nat) (init : List Booking) :
    execState today ids nowTs reqs snap init 0 = init := by
  simp [execState]

lemma execState_succ (today : Date) (ids : Nat → String) (nowTs : String)
    (reqs : Nat → BookingCreate) (snap : Nat → Nat) (init : List Booking)
    (k : Nat) :
    execState today ids nowTs reqs snap init (k + 1)
      = (reserveConc today (ids k) nowTs (reqs k)
          (execState today ids nowTs reqs snap init (min (snap k) k))
          (execState today ids nowTs reqs snap init k)).2 := by
  rw [execState]

lemma reserveConc_ok (today : Date) (newId nowTs : String) (bd : BookingCreate)
    (pre cur : List Booking)
    (hv : validate_booking_date bd.date today = true)
    (h1 : slotTaken pre bd.date bd.role = false)
    (h2 : personTaken pre bd.date bd.full_name = false)
    (h3 : slotTaken cur bd.date bd.role = false) :
    reserveConc today newId nowTs bd pre cur
      = (.ok (newBooking newId nowTs bd), cur ++ [newBooking newId nowTs bd]) := by
  simp [reserveConc, hv, h1, h2, h3]

lemma reserveConc_conflict (today : Date) (newId nowTs : String)
    (bd : BookingCreate) (pre cur : List Booking)
    (hv : validate_booking_date bd.date today = true)
    (h : slotTaken pre bd.date bd.role = true
      ∨ (slotTaken pre bd.date bd.role = false
          ∧ personTaken pre bd.date bd.full_name = false
          ∧ slotTaken cur bd.date bd.role = true)) :
    reserveConc today newId nowTs bd pre cur = (.error .slotConflict, cur) := by
  rcases h with h | ⟨h1, h2, h3⟩
  · simp [reserveConc, hv, h]
  · simp [reserveConc, hv, h1, h2, h3]

lemma slotTaken_append_one (s : List Booking) (b : Booking) (d r : String)
    (h1 : b.date = d) (h2 : b.role = r) (h3 : b.status = "Booked") :
    slotTaken (s ++ [b]) d r = true := by
  simp [slotTaken, List.any_append, h1, h2, h3]

lemma slotTaken_false_of_no_booked (s : List Booking) (d r : String)
    (h : ∀ b ∈ s, b.date = d → b.status ≠ "Booked") :
    slotTaken s d r = false := by
  simp only [slotTaken, List.any_eq_false]
  intro b hb
  simp only [Bool.and_eq_true, beq_iff_eq, not_and]
  intro hd hs
  exact h b hb hd.1 hs

lemma personTaken_false_of_no_booked (s : List Booking) (d nm : String)
    (h : ∀ b ∈ s, b.date = d → b.status ≠ "Booked") :
    personTaken s d nm = false := by
  simp only [personTaken, List.any_eq_false]
  intro b hb
  simp only [Bool.and_eq_true, beq_iff_eq, not_and]
  intro hd hs
  exact h b hb hd.1 hs

lemma countBooked_eq_zero (s : List Booking) (d r : String)
    (h : slotTaken s d r = false) : countBooked s d r = 0 := by
  simp only [slotTaken, List.any_eq_false] at h
  simp only [countBooked, List.length_eq_zero, List.filter_eq_nil_iff]
  exact h

lemma countBooked_append_one (s : List Booking) (b : Booking) (d r : String)
    (h1 : b.date = d) (h2 : b.role = r) (h3 : b.status = "Booked") :
    countBooked (s ++ [b]) d r = countBooked s d r + 1 := by
  simp [countBooked, List.filter_append, h1, h2, h3]

/-- In an interleaved run of calls that all target the same free slot
(d, r) on a valid date, the store stabilises after the first commit: it is the
initial store plus the single booking inserted by the first committer. -/
lemma execState_stable (today : Date) (ids : Nat → String) (nowTs : String)
    (reqs : Nat → BookingCreate) (snap : Nat → Nat) (init : List Booking)
    (d r : String)
    (hd : ∀ k, (reqs k).date = d) (hr : ∀ k, (reqs k).role = r)
    (hv : validate_booking_date d today = true)
    (hinit : ∀ b ∈ init, b.date = d → b.status ≠ "Booked") :
    ∀ k, 1 ≤ k →
      execState today ids nowTs reqs snap init k
        = init ++ [newBooking (ids 0) nowTs (reqs 0)] := by
  intro k
  induction k using Nat.strong_induction_on with
  | _ k ih =>
    intro hk
    obtain ⟨j, rfl⟩ : ∃ j, k = j + 1 := ⟨k - 1, by omega⟩
    rw [execState_succ]
    have hslot0 : slotTaken init (reqs j).date (reqs j).role = false := by
      rw [hd j, hr j]; exact slotTaken_false_of_no_booked init d r hinit
    have hperson0 : personTaken init (reqs j).date (reqs j).full_name = false := by
      rw [hd j]; exact personTaken_false_of_no_booked init d _ hinit
    have hv' : validate_booking_date (reqs j).date today = true := by
      rw [hd j]; exact hv
    rcases Nat.eq_zero_or_pos j with hj | hj
    · subst hj
      have hmin : min (snap 0) 0 = 0 := by omega
      rw [hmin, execState_zero,
        reserveConc_ok today (ids 0) nowTs (reqs 0) init init hv' hslot0 hperson0 hslot0]
    · have hcur : execState today ids nowTs reqs snap init j
          = init ++ [newBooking (ids 0) nowTs (reqs 0)] := ih j (by omega) hj
      have hslotcur : slotTaken (execState today ids nowTs reqs snap init j)
          (reqs j).date (reqs j).role = true := by
        rw [hcur, hd j, hr j]
        exact slotTaken_append_one init _ d r (hd 0) (hr 0) rfl
      rcases Nat.eq_zero_or_pos (min (snap j) j) with hm | hm
      · rw [hm, execState_zero,
          reserveConc_conflict today (ids j) nowTs (reqs j) init _ hv'
            (Or.inr ⟨hslot0, hperson0, hslotcur⟩)]
        exact hcur
      · have hpre : execState today ids nowTs reqs snap init (min (snap j) j)
            = init ++ [newBooking (ids 0) nowTs (reqs 0)] :=
          ih (min (snap j) j) (by omega) hm
        have hslotpre : slotTaken
            (execState today ids nowTs reqs snap init (min (snap j) j))
            (reqs j).date (reqs j).role = true := by
          rw [hpre, hd j, hr j]
          exact slotTaken_append_one init _ d r (hd 0) (hr 0) rfl
        rw [reserveConc_conflict today (ids j) nowTs (reqs j) _ _ hv'
            (Or.inl hslotpre)]
        exact hcur

/-- Claim C1: for every (date, role) pair at most one Booked booking exists at
any instant, and among N concurrent `Reserve` calls for the same free
(date, role) slot — any commit order, any pre-check snapshots — the first
committer succeeds and every other call observes `SlotConflict`, for all
N ≥ 1. -/
theorem no_double_booking (today : Date) (ids : Nat → String) (nowTs : String)
    (reqs : Nat → BookingCreate) (snap : Nat → Nat) (init : List Booking)
    (d r : String) (N : Nat) (hN : 1 ≤ N)
    (hd : ∀ k, (reqs k).date = d) (hr : ∀ k, (reqs k).role = r)
    (hv : validate_booking_date d today = true)
    (hinit : ∀ b ∈ init, b.date = d → b.status ≠ "Booked") :
    (∀ k, countBooked (execState today ids nowTs reqs snap init k) d r ≤ 1)
    ∧ execOutcome today ids nowTs reqs snap init 0
        = .ok (newBooking (ids 0) nowTs (reqs 0))
    ∧ ∀ k, 1 ≤ k → k < N →
        execOutcome today ids nowTs reqs snap init k = .error .slotConflict := by
  have hinit0 : countBooked init d r = 0 :=
    countBooked_eq_zero init d r (slotTaken_false_of_no_booked init d r hinit)
  refine ⟨?_, ?_, ?_⟩
  · intro k
    rcases Nat.eq_zero_or_pos k with hk | hk
    · subst hk
      rw [execState_zero, hinit0]
      omega
    · rw [execState_stable today ids nowTs reqs snap init d r hd hr hv hinit k hk,
        countBooked_append_one init _ d r (hd 0) (hr 0) rfl, hinit0]
  · have hmin : min (snap 0) 0 = 0 := by omega
    have hslot0 : slotTaken init (reqs 0).date (reqs 0).role = false := by
      rw [hd 0, hr 0]; exact slotTaken_false_of_no_booked init d r hinit
    have hperson0 : personTaken init (reqs 0).date (reqs 0).full_name = false := by
      rw [hd 0]; exact personTaken_false_of_no_booked init d _ hinit
    have hv0 : validate_booking_date (reqs 0).date today = true := by
      rw [hd 0]; exact hv
    rw [execOutcome, hmin, execState_zero,
      reserveConc_ok today (ids 0) nowTs (reqs 0) init init hv0 hslot0 hperson0 hslot0]
  · intro k hk _
    have hcur : execState today ids nowTs reqs snap init k
        = init ++ [newBooking (ids 0) nowTs (reqs 0)] :=
      execState_stable today ids nowTs reqs snap init d r hd hr hv hinit k hk
    have hslotcur : slotTaken (execState today ids nowTs reqs snap init k)
        (reqs k).date (reqs k).role = true := by
      rw [hcur, hd k, hr k]
      exact slotTaken_append_one init _ d r (hd 0) (hr 0) rfl
    have hv' : validate_booking_date (reqs k).date today = true := by
      rw [hd k]; exact hv
    have hslot0 : slotTaken init (reqs k).date (reqs k).role = false := by
      rw [hd k, hr k]; exact slotTaken_false_of_no_booked init d r hinit
    have hperson0 : personTaken init (reqs k).date (reqs k).full_name = false := by
      rw [hd k]; exact personTaken_false_of_no_booked init d _ hinit
    rcases Nat.eq_zero_or_pos (min (snap k) k) with hm | hm
    · rw [execOutcome, hm, execState_zero,
        reserveConc_conflict today (ids k) nowTs (reqs k) init _ hv'
          (Or.inr ⟨hslot0, hperson0, hslotcur⟩)]
    · have hpre : execState today ids nowTs reqs snap init (min (snap k) k)
          = init ++ [newBooking (ids 0) nowTs (reqs 0)] :=
        execState_stable today ids nowTs reqs snap init d r hd hr hv hinit _ hm
      have hslotpre : slotTaken
          (execState today ids nowTs reqs snap init (min (snap k) k))
          (reqs k).date (reqs k).role = true := by
        rw [hpre, hd k, hr k]
        exact slotTaken_append_one init _ d r (hd 0) (hr 0) rfl
      rw [execOutcome,
        reserveConc_conflict today (ids k) nowTs (reqs k) _ _ hv'
          (Or.inl hslotpre)]

/-- Witness for `no_double_booking`: three concurrent reservations of the
free slot (2024-01-02, Prayer), all pre-checks reading the empty initial
store: the first committer succeeds, the second observes `SlotConflict`, and
the store never holds more than one Booked record for the slot. -/
theorem no_double_booking_witness :
    countBooked
      (execState ⟨2024, 1, 1⟩ (fun _ => "id0") "t0"
        (fun _ => ⟨"Ann Lee", "Prayer", "2024-01-02", none, none⟩)
        (fun _ => 0) [] 2) "2024-01-02" "Prayer" ≤ 1
    ∧ execOutcome ⟨2024, 1, 1⟩ (fun _ => "id0") "t0"
        (fun _ => ⟨"Ann Lee", "Prayer", "2024-01-02", none, none⟩)
        (fun _ => 0) [] 0
      = .ok (newBooking "id0" "t0" ⟨"Ann Lee", "Prayer", "2024-01-02", none, none⟩)
    ∧ execOutcome ⟨2024, 1, 1⟩ (fun _ => "id0") "t0"
        (fun _ => ⟨"Ann Lee", "Prayer", "2024-01-02", none, none⟩)
        (fun _ => 0) [] 1
      = .error .slotConflict := by
  obtain ⟨h1, h2, h3⟩ :=
    no_double_booking ⟨2024, 1, 1⟩ (fun _ => "id0") "t0"
      (fun _ => ⟨"Ann Lee", "Prayer", "2024-01-02", none, none⟩)
      (fun _ => 0) [] "2024-01-02" "Prayer" 3 (by omega)
      (fun _ => rfl) (fun _ => rfl) (by decide) (by simp)
  exact ⟨h1 2, h2, h3 1 (by omega) (by omega)⟩

/-- Claim C2: when the conditional write finds that a Booked record for
(date, role) already exists in the live store (`matched_count > 0`), even
though the advisory pre-checks passed on the caller's snapshot, the call
signals `SlotConflict`, returns no new booking identity, and leaves the
store exactly as it was. -/
theorem conditional_write_conflict (today : Date) (newId nowTs : String)
    (bd : BookingCreate) (pre cur : List Booking)
    (hv : validate_booking_date bd.date today = true)
    (h1 : slotTaken pre bd.date bd.role = false)
    (h2 : personTaken pre bd.date bd.full_name = false)
    (h3 : slotTaken cur bd.date bd.role = true) :
    reserveConc today newId nowTs bd pre cur = (.error .slotConflict, cur) :=
  reserveConc_conflict today newId nowTs bd pre cur hv (Or.inr ⟨h1, h2, h3⟩)

/-- Witness for `conditional_write_conflict`: the pre-checks read an empty
snapshot, but a rival booking for (2024-01-02, Prayer) committed first. -/
theorem conditional_write_conflict_witness :
    slotTaken [newBooking "idA" "t0" ⟨"Bob Roy", "Prayer", "2024-01-02", none, none⟩]
        "2024-01-02" "Prayer" = true
    ∧ reserveConc ⟨2024, 1, 1⟩ "idB" "t1"
        ⟨"Ann Lee", "Prayer", "2024-01-02", none, none⟩ []
        [newBooking "idA" "t0" ⟨"Bob Roy", "Prayer", "2024-01-02", none, none⟩]
      = (.error .slotConflict,
         [newBooking "idA" "t0" ⟨"Bob Roy", "Prayer", "2024-01-02", none, none⟩]) :=
  ⟨by decide,
    conditional_write_conflict ⟨2024, 1, 1⟩ "idB" "t1"
      ⟨"Ann Lee", "Prayer", "2024-01-02", none, none⟩ []
      [newBooking "idA" "t0" ⟨"Bob Roy", "Prayer", "2024-01-02", none, none⟩]
      (by decide) (by decide) (by decide) (by decide)⟩

/-- Claim C3: a date string that parses is accepted exactly when its weekday
is Monday through Thursday and it lies in the inclusive window
[today, today + 31 days]; `create_booking` rejects with `InvalidDate`
exactly when validation fails.  Concretely, with today = Monday 2024-01-01:
+31 days (Thursday 2024-02-01) is accepted; +32 days is rejected; a Monday
beyond the window is rejected; Friday, Saturday and Sunday dates are
rejected; a past Thursday is rejected. -/
theorem date_validation_boundary (today dt : Date) (bd : BookingCreate)
    (newId nowTs : String) (store : List Booking)
    (hp : parseDate bd.date = some dt) :
    (validate_booking_date bd.date today = true
      ↔ (weekday dt ≤ 3 ∧ rataDie today ≤ rataDie dt
          ∧ rataDie dt ≤ rataDie today + 31))
    ∧ ((create_booking today newId nowTs bd store).1 = .error .invalidDate
        ↔ validate_booking_date bd.date today = false)
    ∧ validate_booking_date "2024-02-01" ⟨2024, 1, 1⟩ = true
    ∧ validate_booking_date "2024-02-02" ⟨2024, 1, 1⟩ = false
    ∧ validate_booking_date "2024-02-05" ⟨2024, 1, 1⟩ = false
    ∧ validate_booking_date "2024-01-05" ⟨2024, 1, 1⟩ = false
    ∧ validate_booking_date "2024-01-06" ⟨2024, 1, 1⟩ = false
    ∧ validate_booking_date "2024-01-07" ⟨2024, 1, 1⟩ = false
    ∧ validate_booking_date "2023-12-28" ⟨2024, 1, 1⟩ = false := by
  refine ⟨?_, ?_, by decide, by decide, by decide, by decide, by decide,
    by decide, by decide⟩
  · simp only [validate_booking_date, hp]
    split_ifs with h1 h2 h3 <;> simp <;> omega
  · cases hval : validate_booking_date bd.date today with
    | false => simp [create_booking, reserveConc, hval]
    | true =>
      simp only [create_booking, reserveConc, hval, Bool.not_true, if_neg,
        Bool.false_eq_true, not_false_eq_true]
      split_ifs <;> simp

/-- Witness for `date_validation_boundary` at today = 2024-01-01 and the
parsed date 2024-01-02. -/
theorem date_validation_boundary_witness :
    parseDate "2024-01-02" = some ⟨2024, 1, 2⟩
    ∧ (validate_booking_date "2024-01-02" ⟨2024, 1, 1⟩ = true
        ↔ (weekday ⟨2024, 1, 2⟩ ≤ 3
            ∧ rataDie ⟨2024, 1, 1⟩ ≤ rataDie ⟨2024, 1, 2⟩
            ∧ rataDie ⟨2024, 1, 2⟩ ≤ rataDie ⟨2024, 1, 1⟩ + 31)) :=
  ⟨by decide,
    (date_validation_boundary ⟨2024, 1, 1⟩ ⟨2024, 1, 2⟩
      ⟨"Ann Lee", "Prayer", "2024-01-02", none, none⟩ "id0" "t0" [] (by decide)).1⟩

/-- Claim C10: a date string that does not parse as a YYYY-MM-DD calendar
date is rejected by the same `InvalidDate` outcome as weekday and window
violations — validation is total and returns false on malformed input, and
`create_booking` aborts before touching the store. -/
theorem malformed_date_rejected (today : Date) (bd : BookingCreate)
    (newId nowTs : String) (store : List Booking)
    (hp : parseDate bd.date = none) :
    validate_booking_date bd.date today = false
    ∧ create_booking today newId nowTs bd store = (.error .invalidDate, store) := by
  have hval : validate_booking_date bd.date today = false := by
    simp [validate_booking_date, hp]
  exact ⟨hval, by simp [create_booking, reserveConc, hval]⟩

/-- Witness for `malformed_date_rejected` on the unparsable string
"not-a-date". -/
theorem malformed_date_rejected_witness :
    parseDate "not-a-date" = none
    ∧ validate_booking_date "not-a-date" ⟨2024, 1, 1⟩ = false
    ∧ create_booking ⟨2024, 1, 1⟩ "id0" "t0"
        ⟨"Ann Lee", "Prayer", "not-a-date", none, none⟩ []
      = (.error .invalidDate, []) := by
  obtain ⟨h1, h2⟩ :=
    malformed_date_rejected ⟨2024, 1, 1⟩
      ⟨"Ann Lee", "Prayer", "not-a-date", none, none⟩ "id0" "t0" [] (by decide)
  exact ⟨by decide, h1, h2⟩

/-- Claim C4 (code bug): the duplicate-person check interpolates the raw
submitted name into a regular expression (`"$regex": "^" + name + "$"`)
instead of testing case-insensitive string equality.  A person named "a+b"
— equal to their stored name under the case-insensitive exact match the
invariant speaks of — is not matched by their own name as a regex, so a
second Booked booking for the same (date, person) is created instead of
`DuplicatePerson`. -/
theorem duplicate_person_regex_bug :
    ciEq "a+b" "a+b" = true
    ∧ personTaken
        [newBooking "idA" "t0" ⟨"a+b", "Prayer", "2024-01-01", none, none⟩]
        "2024-01-01" "a+b" = false
    ∧ create_booking ⟨2024, 1, 1⟩ "idB" "t1"
        ⟨"a+b", "Worship", "2024-01-01", none, none⟩
        [newBooking "idA" "t0" ⟨"a+b", "Prayer", "2024-01-01", none, none⟩]
      = (.ok (newBooking "idB" "t1" ⟨"a+b", "Worship", "2024-01-01", none, none⟩),
         [newBooking "idA" "t0" ⟨"a+b", "Prayer", "2024-01-01", none, none⟩,
          newBooking "idB" "t1" ⟨"a+b", "Worship", "2024-01-01", none, none⟩])
    ∧ ([newBooking "idA" "t0" ⟨"a+b", "Prayer", "2024-01-01", none, none⟩,
        newBooking "idB" "t1" ⟨"a+b", "Worship", "2024-01-01", none, none⟩].filter
          fun b => b.date == "2024-01-01" && ciEq b.full_name "a+b"
            && b.status == "Booked").length = 2 :=
  ⟨rfl, rfl, rfl, rfl⟩

/-- Claim C5: cancelling a booking releases its (date, role) slot.  Reserving
(d, Prayer) into an empty store succeeds; `unlock_slot` flips that booking
to Cancelled (retaining it); a subsequent reservation of (d, Prayer) by a
different person then succeeds, with the cancelled record still present. -/
theorem cancellation_releases_slot (today : Date)
    (d nameA nameB idA idB t1 t2 t3 : String)
    (hv : validate_booking_date d today = true)
    (hdiff : nameA ≠ nameB) :
    create_booking today idA t1 ⟨nameA, "Prayer", d, none, none⟩ []
      = (.ok (newBooking idA t1 ⟨nameA, "Prayer", d, none, none⟩),
         [newBooking idA t1 ⟨nameA, "Prayer", d, none, none⟩])
    ∧ unlock_slot [newBooking idA t1 ⟨nameA, "Prayer", d, none, none⟩] idA t2
      = (.ok "Slot unlocked successfully",
         [setCancelled t2 (newBooking idA t1 ⟨nameA, "Prayer", d, none, none⟩)])
    ∧ (setCancelled t2 (newBooking idA t1 ⟨nameA, "Prayer", d, none, none⟩)).status
      = "Cancelled"
    ∧ create_booking today idB t3 ⟨nameB, "Prayer", d, none, none⟩
        [setCancelled t2 (newBooking idA t1 ⟨nameA, "Prayer", d, none, none⟩)]
      = (.ok (newBooking idB t3 ⟨nameB, "Prayer", d, none, none⟩),
         [setCancelled t2 (newBooking idA t1 ⟨nameA, "Prayer", d, none, none⟩),
          newBooking idB t3 ⟨nameB, "Prayer", d, none, none⟩]) := by
  refine ⟨?_, ?_, rfl, ?_⟩
  · simp [create_booking, reserveConc, hv, slotTaken, personTaken]
  · simp [unlock_slot, updateFirst, newBooking]
  · simp [create_booking, reserveConc, hv, slotTaken, personTaken,
      setCancelled, newBooking]

/-- Witness for `cancellation_releases_slot`: after Ann Lee's booking of
(2024-01-02, Prayer) is cancelled, Bob Roy books the same slot. -/
theorem cancellation_releases_slot_witness :
    validate_booking_date "2024-01-02" ⟨2024, 1, 1⟩ = true
    ∧ ("Ann Lee" : String) ≠ "Bob Roy"
    ∧ create_booking ⟨2024, 1, 1⟩ "idB" "t3"
        ⟨"Bob Roy", "Prayer", "2024-01-02", none, none⟩
        [setCancelled "t2"
          (newBooking "idA" "t1" ⟨"Ann Lee", "Prayer", "2024-01-02", none, none⟩)]
      = (.ok (newBooking "idB" "t3" ⟨"Bob Roy", "Prayer", "2024-01-02", none, none⟩),
         [setCancelled "t2"
            (newBooking "idA" "t1" ⟨"Ann Lee", "Prayer", "2024-01-02", none, none⟩),
          newBooking "idB" "t3" ⟨"Bob Roy", "Prayer", "2024-01-02", none, none⟩]) :=
  ⟨by decide, by decide,
    (cancellation_releases_slot ⟨2024, 1, 1⟩ "2024-01-02" "Ann Lee" "Bob Roy"
      "idA" "idB" "t1" "t2" "t3" (by decide) (by decide)).2.2.2⟩

/-- Claim C6: an edit that changes date or role raises `SlotConflict` —
leaving the store, hence the edited booking, untouched — exactly when some
other booking (the edited one excluded) is Booked for the resulting
(date, role). -/
theorem edit_conflict_check (s : List Booking) (bookingId nowTs : String)
    (u : BookingUpdate) (A : Booking)
    (hfind : s.find? (fun b => b.id == bookingId) = some A)
    (hchange : (u.date.isSome || u.role.isSome) = true) :
    update_booking s bookingId u nowTs = (.error .slotConflict, s)
      ↔ ∃ b ∈ s, b.id ≠ bookingId ∧ b.status = "Booked"
          ∧ b.date = u.date.getD A.date ∧ b.role = u.role.getD A.role := by
  have hfields : hasFields u = true := by
    rcases Bool.or_eq_true _ _ |>.mp hchange with h | h
    · simp [hasFields, h]
    · simp [hasFields, h]
  rw [update_booking, hfields, hchange]
  simp only [Bool.not_true, Bool.false_eq_true, if_false, if_true, hfind]
  cases hany : s.any (fun b => b.date == u.date.getD A.date
      && b.role == u.role.getD A.role && b.status == "Booked"
      && !(b.id == bookingId)) with
  | true =>
    simp only [hany, if_true]
    constructor
    · intro _
      obtain ⟨b, hb, hcond⟩ := List.any_eq_true.mp hany
      simp only [Bool.and_eq_true, beq_iff_eq, Bool.not_eq_true',
        beq_eq_false_iff_ne] at hcond
      exact ⟨b, hb, hcond.2, hcond.1.2, hcond.1.1.1, hcond.1.1.2⟩
    · intro _
      trivial
  | false =>
    simp only [hany, Bool.false_eq_true, if_false]
    constructor
    · intro h
      cases hup : updateFirst (fun b => b.id == bookingId) (applyUpdate u nowTs) s with
      | none => rw [hup] at h; simp at h
      | some s' => rw [hup] at h; simp at h
    · rintro ⟨b, hb, hne, hs, hdt, hrl⟩
      have : s.any (fun b => b.date == u.date.getD A.date
          && b.role == u.role.getD A.role && b.status == "Booked"
          && !(b.id == bookingId)) = true := by
        refine List.any_eq_true.mpr ⟨b, hb, ?_⟩
        simp [hdt, hrl, hs, hne]
      rw [hany] at this
      cases this

/-- Witness for `edit_conflict_check`: moving booking "a" onto the
(2024-01-03, Prayer) slot held by Booked booking "b" is refused and the
store is unchanged. -/
theorem edit_conflict_check_witness :
    ([newBooking "a" "t0" ⟨"Ann Lee", "Prayer", "2024-01-02", none, none⟩,
      newBooking "b" "t0" ⟨"Bob Roy", "Prayer", "2024-01-03", none, none⟩].find?
        (fun b => b.id == "a")
      = some (newBooking "a" "t0" ⟨"Ann Lee", "Prayer", "2024-01-02", none, none⟩))
    ∧ (update_booking
        [newBooking "a" "t0" ⟨"Ann Lee", "Prayer", "2024-01-02", none, none⟩,
         newBooking "b" "t0" ⟨"Bob Roy", "Prayer", "2024-01-03", none, none⟩]
        "a" ⟨none, none, some "2024-01-03", none, none, none⟩ "t1"
        = (.error .slotConflict,
           [newBooking "a" "t0" ⟨"Ann Lee", "Prayer", "2024-01-02", none, none⟩,
            newBooking "b" "t0" ⟨"Bob Roy", "Prayer", "2024-01-03", none, none⟩])
      ↔ ∃ b ∈ [newBooking "a" "t0" ⟨"Ann Lee", "Prayer", "2024-01-02", none, none⟩,
               newBooking "b" "t0" ⟨"Bob Roy", "Prayer", "2024-01-03", none, none⟩],
          b.id ≠ "a" ∧ b.status = "Booked"
            ∧ b.date = (some "2024-01-03").getD
                (newBooking "a" "t0" ⟨"Ann Lee", "Prayer", "2024-01-02", none, none⟩).date
            ∧ b.role = (none : Option String).getD
                (newBooking "a" "t0" ⟨"Ann Lee", "Prayer", "2024-01-02", none, none⟩).role) :=
  ⟨rfl,
    edit_conflict_check
      [newBooking "a" "t0" ⟨"Ann Lee", "Prayer", "2024-01-02", none, none⟩,
       newBooking "b" "t0" ⟨"Bob Roy", "Prayer", "2024-01-03", none, none⟩]
      "a" "t1" ⟨none, none, some "2024-01-03", none, none, none⟩
      (newBooking "a" "t0" ⟨"Ann Lee", "Prayer", "2024-01-02", none, none⟩)
      rfl rfl⟩

/-- Claim C7: the privacy transform maps a multi-token name to its first
token, a space, the first character of its last token and a period; a
single-token name passes through unchanged; an empty name becomes the fixed
placeholder.  Concretely: "Jane Mary Doe" becomes "Jane D.", "Madonna" stays
"Madonna", "" becomes "Anonymous". -/
theorem display_name_transform :
    (∀ name : String,
      format_name_display name
        = match nameTokens name with
          | [] => "Anonymous"
          | [p] => p
          | p :: rest => p ++ " " ++ firstCharStr ((p :: rest).getLastD "") ++ ".")
    ∧ format_name_display "Jane Mary Doe" = "Jane D."
    ∧ format_name_display "Madonna" = "Madonna"
    ∧ format_name_display "" = "Anonymous" := by
  refine ⟨?_, rfl, rfl, rfl⟩
  intro name
  match h : nameTokens name with
  | [] => simp [format_name_display, h]
  | [p] => simp [format_name_display, h]
  | p :: q :: rest => simp [format_name_display, h]

lemma reminders_attempted (apiKey : String) (t : String → Except String Nat)
    (l : List Booking) :
    (l.filterMap fun b =>
        match b.email with
        | some e => if e == "" then none else some (e, sendEmailViaResend apiKey t e)
        | none => none).map Prod.fst
      = l.filterMap fun b =>
          match b.email with
          | some e => if e == "" then none else some e
          | none => none := by
  induction l with
  | nil => rfl
  | cons b tl ih =>
    cases hb : b.email with
    | none => simpa [List.filterMap_cons, hb] using ih
    | some e =>
      by_cases he : e = ""
      · simpa [List.filterMap_cons, hb, he] using ih
      · simpa [List.filterMap_cons, hb, he] using ih

/-- Claim C8: the reminder job attempts one send per today-Booked booking
with an address, in store order, and the attempted recipients are the same
whatever the email collaborator does — a failing send never aborts the
remaining sends, and no send failure escapes the job (its result type has no
failure case: every transport error is absorbed into a recorded outcome). -/
theorem reminder_failure_isolation (todayStr apiKey : String)
    (t1 t2 : String → Except String Nat) (store : List Booking) :
    (send_daily_reminders todayStr apiKey t1 store).map Prod.fst
      = (send_daily_reminders todayStr apiKey t2 store).map Prod.fst
    ∧ (send_daily_reminders todayStr apiKey t1 store).map Prod.fst
      = ((store.filter fun b =>
            b.date == todayStr && b.status == "Booked" && b.email.isSome).filterMap
          fun b =>
            match b.email with
            | some e => if e == "" then none else some e
            | none => none) := by
  constructor
  · rw [send_daily_reminders, send_daily_reminders,
      reminders_attempted, reminders_attempted]
  · rw [send_daily_reminders, reminders_attempted]

lemma toPublic_scrub (b : Booking) : toPublic (scrub b) = toPublic b := rfl

lemma get_public_bookings_scrub (s : List Booking) :
    get_public_bookings (s.map scrub) = get_public_bookings s := by
  induction s with
  | nil => rfl
  | cons b tl ih =>
    simp only [get_public_bookings, List.map_cons, List.filter_cons] at *
    have hst : (scrub b).status = b.status := rfl
    rw [hst]
    by_cases h : (b.status == "Booked") = true
    · simp only [h, if_true, List.map_cons, toPublic_scrub, ih]
    · simp only [h, Bool.false_eq_true, if_false, ih]

/-- Claim C9: the public bookings listing is independent of the `email` and
`notes` fields — two stores that agree after those two fields are erased
produce identical output — and every returned record carries the
privacy-transformed display name of its holder. -/
theorem public_listing_privacy (s1 s2 : List Booking)
    (h : s1.map scrub = s2.map scrub) :
    get_public_bookings s1 = get_public_bookings s2
    ∧ ∀ pb ∈ get_public_bookings s1,
        pb.display_name = format_name_display pb.full_name := by
  constructor
  · rw [← get_public_bookings_scrub s1, ← get_public_bookings_scrub s2, h]
  · intro pb hpb
    simp only [get_public_bookings, List.mem_map] at hpb
    obtain ⟨b, -, rfl⟩ := hpb
    rfl

/-- Witness for `public_listing_privacy`: two one-booking stores that differ
exactly in the email address and the note produce the same public output. -/
theorem public_listing_privacy_witness :
    [newBooking "idA" "t0"
        ⟨"Jane Mary Doe", "Prayer", "2024-01-02", some "private note", some "jane@example.com"⟩].map scrub
      = [newBooking "idA" "t0" ⟨"Jane Mary Doe", "Prayer", "2024-01-02", none, none⟩].map scrub
    ∧ get_public_bookings
        [newBooking "idA" "t0"
          ⟨"Jane Mary Doe", "Prayer", "2024-01-02", some "private note", some "jane@example.com"⟩]
      = get_public_bookings
          [newBooking "idA" "t0" ⟨"Jane Mary Doe", "Prayer", "2024-01-02", none, none⟩] :=
  ⟨rfl,
    (public_listing_privacy
      [newBooking "idA" "t0"
        ⟨"Jane Mary Doe", "Prayer", "2024-01-02", some "private note", some "jane@example.com"⟩]
      [newBooking "idA" "t0" ⟨"Jane Mary Doe", "Prayer", "2024-01-02", none, none⟩]
      rfl).1⟩

end Hebron
